import Mathlib

/-!
Verification of the FixIt troubleshooting system (frontend in
`frontend/src`, API response types in `types/api-response.ts`).  The
request-orchestration and resilience core described by the spec is a
separate backend service that is not part of this repository tree; the
definitions for it below are modelled from the spec and say so in their
doc comments.  Everything else is a direct shallow embedding of the
TypeScript source.  TypeScript `number` values that the code compares or
divides are embedded as rationals; JavaScript `NaN` (the result of
`Number(x)` on non-numeric input) is embedded as `Option.none`.
-/

namespace Fixit

/-! ## Data model, from frontend/src/types/api-response.ts -/

/-- `AnswerType` from api-response.ts: the enumerated classification of the
overall response shape. -/
inductive AnswerType
  | locate_only
  | identify_only
  | explain_only
  | troubleshoot_steps
  | mixed
  | ask_clarifying_questions
  | reject_invalid_image
  | ask_for_better_input
  | safety_warning_only
deriving DecidableEq, Repr

/-- `CannotComplyReason` from api-response.ts (the TypeScript union includes
`null`, embedded as `Option CannotComplyReason`). -/
inductive CannotComplyReason
  | not_visible
  | not_present
  | low_confidence
  | invalid_image
  | safety_risk
deriving DecidableEq, Repr

/-- `ComponentStatus` from api-response.ts. -/
inductive ComponentStatus
  | found
  | not_visible
  | not_present
  | ambiguous
deriving DecidableEq, Repr

/-- `Severity` from api-response.ts. -/
inductive Severity
  | low
  | medium
  | high
  | critical
deriving DecidableEq, Repr

/-- `BoundingBox` from api-response.ts: four fractional coordinates. -/
structure BoundingBox where
  x_min : ℚ
  y_min : ℚ
  x_max : ℚ
  y_max : ℚ
deriving DecidableEq, Repr

/-- A 2-D point, the shape of the `from`/`to` fields of `ArrowHint`. -/
structure Point where
  x : ℚ
  y : ℚ
deriving DecidableEq, Repr

/-- `ArrowHint` from api-response.ts (`from` is a Lean keyword, so the two
fields are named `start` and `stop`). -/
structure ArrowHint where
  start : Point
  stop : Point
deriving DecidableEq, Repr

/-- `DeviceInfo` from api-response.ts. -/
structure DeviceInfo where
  device_category : String
  device_type : String
  brand : String
  model : String
  brand_model_guidance : Option String
  confidence : ℚ
deriving DecidableEq, Repr

/-- `LocalizationResult` from api-response.ts: one `ComponentLocalization`. -/
structure LocalizationResult where
  target : String
  status : ComponentStatus
  bounding_box : Option BoundingBox
  spatial_description : String
  landmark_description : String
  reasoning : String
  suggested_action : String
  confidence : ℚ
  disambiguation_needed : Bool
deriving DecidableEq, Repr

/-- `Diagnosis` from api-response.ts. -/
structure Diagnosis where
  issue : String
  severity : Severity
  safety_warning : Option String
  possible_causes : Option (List String)
  indicators : Option (List String)
deriving DecidableEq, Repr

/-- `TroubleshootingStep` from api-response.ts. -/
structure TroubleshootingStep where
  step : ℕ
  instruction : String
  visual_cue : String
  estimated_time : String
  overlay_reference : Option String
  safety_note : Option String
deriving DecidableEq, Repr

/-- `ComponentFunction` from api-response.ts. -/
structure ComponentFunction where
  name : String
  description : String
deriving DecidableEq, Repr

/-- `Explanation` from api-response.ts. -/
structure Explanation where
  overview : String
  component_functions : List ComponentFunction
  data_flow : String
deriving DecidableEq, Repr

/-- `Visualization` from api-response.ts: an AR overlay entry; unlike
`LocalizationResult`, its `bounding_box` is not nullable. -/
structure Visualization where
  target : String
  bounding_box : BoundingBox
  arrow_hint : Option ArrowHint
  label : String
  landmark_description : String
  confidence : ℚ
  overlay_id : String
  disambiguation_needed : Bool
  ambiguity_note : Option String
deriving DecidableEq, Repr

/-- `GroundingSource` from api-response.ts (the optional fields are
embedded as `Option`). -/
structure GroundingSource where
  id : String
  source_type : String
  title : String
  url : String
  domain : String
  excerpt : String
  full_text : Option String
  relevance : String
  referenced_in_steps : List ℕ
  published_date : Option String
  author : Option String
  favicon_url : Option String
deriving DecidableEq, Repr

/-- `APIResponse` from api-response.ts: the AnswerType-discriminated
response object. -/
structure APIResponse where
  answer_type : AnswerType
  needs_clarification : Bool
  cannot_comply_reason : Option CannotComplyReason
  device_info : DeviceInfo
  localization_results : List LocalizationResult
  diagnosis : Option Diagnosis
  troubleshooting_steps : Option (List TroubleshootingStep)
  explanation : Option Explanation
  visualizations : List Visualization
  audio_instructions : String
  clarifying_questions : Option (List String)
  web_grounding_used : Option Bool
  grounding_sources : Option (List GroundingSource)
deriving DecidableEq, Repr

/-- The troubleshooting steps a response carries (the TypeScript field is
optional; a missing field reads as the empty list, exactly as the results
page treats it). -/
def APIResponse.stepsOf (r : APIResponse) : List TroubleshootingStep :=
  r.troubleshooting_steps.getD []

/-! ## File upload validation, from components/input-hub/FileUpload.tsx -/

/-- The fields of a browser `File` object that `FileUpload.tsx` reads:
its MIME type and its size in bytes. -/
structure JsFile where
  name : String
  type : String
  size : ℕ
deriving DecidableEq, Repr

/-- `validTypes` from `validateFile` in FileUpload.tsx. -/
def validTypes : List String :=
  ["image/jpeg", "image/jpg", "image/png", "video/mp4", "video/quicktime"]

/-- `maxSize` from `validateFile` in FileUpload.tsx: 200MB. -/
def maxSize : ℕ := 200 * 1024 * 1024

/-- `validateFile` from FileUpload.tsx.  Returns the boolean result paired
with the error message the component stores via `setError` (`none` embeds
`setError(null)`). -/
def validateFile (f : JsFile) : Bool × Option String :=
  if ¬ validTypes.contains f.type then
    (false, some "Please upload a valid image (JPG, PNG) or video (MP4, MOV) file")
  else if maxSize < f.size then
    (false, some "File size must be less than 200MB")
  else
    (true, none)

/-- `handleFileChange` from FileUpload.tsx: calls `onFileSelect(file)` only
when `validateFile(file)` holds.  The returned option is the argument
passed to `onFileSelect` (`none` when it is never invoked). -/
def handleFileChange (f : JsFile) : Option JsFile :=
  if (validateFile f).1 then some f else none

/-! ## Inbound request route, from app/api/troubleshoot/route.ts -/

/-- The form fields the `POST` handler in route.ts reads from the request
body.  A missing field comes out of `formData.get` as `null`, embedded as
`none`. -/
structure TroubleshootForm where
  image : Option JsFile
  query : Option String
  device_hint : Option String
deriving DecidableEq, Repr

/-- The three response shapes the `POST` handler in route.ts produces:
a 400 with an error message, a 500 with an error message, or a success
payload. -/
inductive PostResponse
  | badRequest (error : String)
  | serverError (error : String)
  | success (message : String)
deriving DecidableEq, Repr

/-- Whether a `PostResponse` is an error response (a fatal `InputError` in
the spec's taxonomy): a 400 or a 500, never the success payload. -/
def PostResponse.isError : PostResponse → Bool
  | .badRequest _ => true
  | .serverError _ => true
  | .success _ => false

/-- JavaScript falsiness of the `query` form value: `null` (missing field)
and the empty string are both falsy, so `if (!query)` fires on either. -/
def jsFalsyStr : Option String → Bool
  | none => true
  | some s => s.isEmpty

/-- The `POST` handler from route.ts.  `none` for the whole form embeds an
unreadable body (`request.formData()` throwing, landing in the `catch`).
The second component counts pipeline/inference calls made by the handler:
the route performs none (the backend call site is a TODO), so it is `0` on
every path. -/
def post (form : Option TroubleshootForm) : PostResponse × ℕ :=
  match form with
  | none => (.serverError "Internal server error", 0)
  | some f =>
    if f.image.isNone then (.badRequest "Image is required", 0)
    else if jsFalsyStr f.query then (.badRequest "Query is required", 0)
    else (.success "Troubleshooting request received successfully", 0)

/-! ## AR overlay style computation, from components/results/ARImageCanvas.tsx -/

/-- The `imageDimensions` state of `ARImageCanvas`: the natural pixel
dimensions of the loaded image, initially `{width: 0, height: 0}`. -/
structure ImgDims where
  width : ℕ
  height : ℕ
deriving DecidableEq, Repr

/-- A bounding box as `getComponentStyle` receives it (`bbox: any`): each
field is `Number(bbox.field)`, which is either a rational or `NaN`
(embedded as `none`, also covering a missing field). -/
structure RawBBox where
  x_min : Option ℚ
  y_min : Option ℚ
  x_max : Option ℚ
  y_max : Option ℚ
deriving DecidableEq, Repr

/-- The CSS style object `getComponentStyle` returns: the four percentage
values for `left`, `top`, `width` and `height`. -/
structure OverlayStyle where
  left : ℚ
  top : ℚ
  width : ℚ
  height : ℚ
deriving DecidableEq, Repr

/-- The `isNormalized` test of `getComponentStyle`: coordinates in the
expected 0-1 range with a -0.05 to 1.05 margin for rounding errors.  The
code checks exactly these four comparisons. -/
def isNormalizedBox (x_min y_min x_max y_max : ℚ) : Prop :=
  -(mkRat 5 100) ≤ x_min ∧ x_max ≤ mkRat 105 100 ∧
    -(mkRat 5 100) ≤ y_min ∧ y_max ≤ mkRat 105 100

instance (x_min y_min x_max y_max : ℚ) :
    Decidable (isNormalizedBox x_min y_min x_max y_max) := by
  unfold isNormalizedBox; infer_instance

/-- The `_isRetry = true` pass of `getComponentStyle` in ARImageCanvas.tsx:
the recursive call made after pixel-to-fraction conversion.  On this pass a
still-unnormalized box stops the recursion (`if (_isRetry) return null`),
a zero-area or inverted box yields `null`, and otherwise the normalized
coordinates are converted to percentages. -/
def getComponentStyleRetry (x_min y_min x_max y_max : ℚ) : Option OverlayStyle :=
  if ¬ isNormalizedBox x_min y_min x_max y_max then none
  else if x_max ≤ x_min ∨ y_max ≤ y_min then none
  else some ⟨x_min * 100, y_min * 100, (x_max - x_min) * 100, (y_max - y_min) * 100⟩

/-- `getComponentStyle` from ARImageCanvas.tsx (the initial
`_isRetry = false` call).  `none` for `bbox` embeds a missing or
non-object box; a `none` coordinate embeds `NaN`.  When the coordinates
are not in the expected range the code needs the natural image dimensions
(JavaScript falsiness: a zero dimension fails `!imageDimensions.width`),
divides each coordinate by them and recurses exactly once with
`_isRetry = true`, embedded as the call to `getComponentStyleRetry`. -/
def getComponentStyle (dims : ImgDims) (bbox : Option RawBBox) : Option OverlayStyle :=
  match bbox with
  | none => none
  | some b =>
    match b.x_min, b.y_min, b.x_max, b.y_max with
    | some x_min, some y_min, some x_max, some y_max =>
      if isNormalizedBox x_min y_min x_max y_max then
        if x_max ≤ x_min ∨ y_max ≤ y_min then none
        else some ⟨x_min * 100, y_min * 100, (x_max - x_min) * 100, (y_max - y_min) * 100⟩
      else if dims.width = 0 ∨ dims.height = 0 then none
      else
        getComponentStyleRetry (x_min / dims.width) (y_min / dims.height)
          (x_max / dims.width) (y_max / dims.height)
    | _, _, _, _ => none

/-! ## Mock session response, from app/dashboard/results/page.tsx
(`getMockSessionData`) -/

/-- The `response` object of `getMockSessionData` in
app/dashboard/results/page.tsx: the concrete assembled response the
results page renders (absent TypeScript fields are `none`; the source's
decimal number literals are written `mkRat n d` so the kernel can
evaluate them, e.g. 0.92 is `mkRat 92 100`). -/
def mockResponse : APIResponse where
  answer_type := .troubleshoot_steps
  needs_clarification := false
  cannot_comply_reason := none
  device_info :=
    { device_category := "Networking"
      device_type := "Wireless Router"
      brand := "TP-Link"
      model := "Archer AX6000"
      brand_model_guidance := some "High-end WiFi 6 router with dual-band support"
      confidence := mkRat 92 100 }
  localization_results :=
    [ { target := "WAN Port"
        status := .found
        bounding_box := some { x_min := mkRat 1 10, y_min := mkRat 6 10, x_max := mkRat 2 10, y_max := mkRat 8 10 }
        spatial_description := "Left side, bottom section"
        landmark_description := "Near the power connector"
        reasoning := "Identified by blue coloring typical of WAN ports"
        suggested_action := "Check if cable is firmly connected"
        confidence := mkRat 95 100
        disambiguation_needed := false },
      { target := "Power LED"
        status := .found
        bounding_box := some { x_min := mkRat 4 10, y_min := mkRat 1 10, x_max := mkRat 5 10, y_max := mkRat 2 10 }
        spatial_description := "Front panel, center"
        landmark_description := "Front indicator LED strip"
        reasoning := "Green LED visible in power-on state"
        suggested_action := "Verify LED is solid green"
        confidence := mkRat 88 100
        disambiguation_needed := false },
      { target := "Reset Button"
        status := .not_visible
        bounding_box := none
        spatial_description := "Usually on the back or bottom"
        landmark_description := "Recessed pinhole button"
        reasoning := "Not visible from this angle"
        suggested_action := "Check the back panel for a small pinhole"
        confidence := mkRat 6 10
        disambiguation_needed := false },
      { target := "WiFi Antenna"
        status := .found
        bounding_box := some { x_min := mkRat 7 10, y_min := mkRat 2 10, x_max := mkRat 9 10, y_max := mkRat 7 10 }
        spatial_description := "Right side, external antennas"
        landmark_description := "Dual external antennas"
        reasoning := "External antennas clearly visible"
        suggested_action := "Ensure antennas are positioned properly"
        confidence := mkRat 98 100
        disambiguation_needed := false } ]
  diagnosis := some
    { issue := "Intermittent disconnections may be caused by channel interference, firmware issues, or overheating. The router appears to be functioning but may need configuration adjustments."
      severity := .medium
      safety_warning := none
      possible_causes := some
        [ "WiFi channel congestion from nearby networks",
          "Outdated firmware version",
          "Router overheating due to poor ventilation",
          "ISP connection instability" ]
      indicators := some
        [ "Frequent disconnections",
          "Slow speeds during peak hours",
          "Need to reboot often" ] }
  troubleshooting_steps := some
    [ { step := 1
        instruction := "Power cycle your router by unplugging it for 30 seconds, then reconnecting the power."
        visual_cue := "Wait for all LEDs to stabilize to solid green/blue"
        estimated_time := "2 minutes"
        overlay_reference := some "power_led"
        safety_note := none },
      { step := 2
        instruction := "Check that the WAN cable (internet) is firmly connected to the blue WAN port."
        visual_cue := "Look for a click when inserting the ethernet cable"
        estimated_time := "30 seconds"
        overlay_reference := some "wan_port"
        safety_note := none },
      { step := 3
        instruction := "Access router settings at 192.168.0.1 and check for firmware updates."
        visual_cue := "Look for \'Firmware Update\' or \'System Update\' in settings"
        estimated_time := "5 minutes"
        overlay_reference := none
        safety_note := some "Do not power off during firmware update" },
      { step := 4
        instruction := "Change WiFi channel to a less congested one (try channels 1, 6, or 11 for 2.4GHz)."
        visual_cue := "Find \'Wireless Settings\' > \'Channel\' in router admin"
        estimated_time := "3 minutes"
        overlay_reference := none
        safety_note := none },
      { step := 5
        instruction := "Ensure router has adequate ventilation - move away from walls and other electronics."
        visual_cue := "Router should have at least 6 inches clearance on all sides"
        estimated_time := "1 minute"
        overlay_reference := none
        safety_note := none } ]
  explanation := none
  visualizations :=
    [ { target := "WAN Port"
        bounding_box := { x_min := mkRat 1 10, y_min := mkRat 6 10, x_max := mkRat 2 10, y_max := mkRat 8 10 }
        arrow_hint := none
        label := "WAN Port"
        landmark_description := "Blue ethernet port for internet connection"
        confidence := mkRat 95 100
        overlay_id := "wan_port"
        disambiguation_needed := false
        ambiguity_note := none },
      { target := "Power LED"
        bounding_box := { x_min := mkRat 4 10, y_min := mkRat 1 10, x_max := mkRat 5 10, y_max := mkRat 2 10 }
        arrow_hint := none
        label := "Power LED"
        landmark_description := "Status indicator on front panel"
        confidence := mkRat 88 100
        overlay_id := "power_led"
        disambiguation_needed := false
        ambiguity_note := none },
      { target := "WiFi Antenna"
        bounding_box := { x_min := mkRat 7 10, y_min := mkRat 2 10, x_max := mkRat 9 10, y_max := mkRat 7 10 }
        arrow_hint := some { start := { x := mkRat 65 100, y := mkRat 3 10 }, stop := { x := mkRat 75 100, y := mkRat 35 100 } }
        label := "WiFi Antenna"
        landmark_description := "External dual-band antennas"
        confidence := mkRat 98 100
        overlay_id := "wifi_antenna"
        disambiguation_needed := false
        ambiguity_note := none } ]
  audio_instructions := "To fix your router disconnection issues, start by power cycling the router. Unplug it for 30 seconds, then reconnect. Next, check that your internet cable is firmly connected to the blue WAN port. Then access your router settings to check for firmware updates. Finally, try changing your WiFi channel and ensure proper ventilation around the router."
  clarifying_questions := none
  web_grounding_used := some true
  grounding_sources := some
    [ { id := "source-1"
        source_type := "manual"
        title := "TP-Link Archer AX6000 User Manual"
        url := "https://www.tp-link.com/us/support/download/archer-ax6000/"
        domain := "tp-link.com"
        excerpt := "When the power LED is off, check the power adapter connection. If the LED is flashing green, the system is starting up. Solid red indicates no internet connection."
        full_text := none
        relevance := "high"
        referenced_in_steps := [1, 2]
        published_date := some "Jan 15, 2024"
        author := none
        favicon_url := none },
      { id := "source-2"
        source_type := "web"
        title := "How to Troubleshoot TP-Link Router Connection Issues"
        url := "https://community.tp-link.com/en/home/forum/topic/265432"
        domain := "community.tp-link.com"
        excerpt := "Many users report that changing the channel width to 40MHz stabilizes the 2.4GHz connection. Also ensure the firmware is up to date."
        full_text := none
        relevance := "medium"
        referenced_in_steps := [4]
        published_date := some "Nov 20, 2023"
        author := none
        favicon_url := none },
      { id := "source-3"
        source_type := "video"
        title := "Fix WiFi Disconnecting Randomly - Router Settings"
        url := "https://youtube.com/watch?v=example"
        domain := "youtube.com"
        excerpt := "This video guide walks through the optimal settings for AX series routers to prevent random drops, including disabling Smart Connect."
        full_text := none
        relevance := "medium"
        referenced_in_steps := [3, 4]
        published_date := some "Aug 10, 2023"
        author := none
        favicon_url := none } ]

/-! ## Response validation (Response Assembler/Validator)

The Response Assembler/Validator of spec section 4.6 lives in the backend
service, which is not part of this repository tree; it is modelled from
the spec below. -/

/-- Well-formedness of a bounding box, as the data model states it:
`x_min < x_max`, `y_min < y_max`, and all four coordinates in `[0, 1]`. -/
def WfBox (b : BoundingBox) : Prop :=
  b.x_min < b.x_max ∧ b.y_min < b.y_max ∧
    0 ≤ b.x_min ∧ b.x_max ≤ 1 ∧ 0 ≤ b.y_min ∧ b.y_max ≤ 1

instance (b : BoundingBox) : Decidable (WfBox b) := by
  unfold WfBox; infer_instance

/-- Whether an optional bounding box is present and well-formed. -/
def WfOptBox : Option BoundingBox → Prop
  | none => False
  | some b => WfBox b

instance : DecidablePred WfOptBox := fun o => by
  cases o <;> simp only [WfOptBox] <;> infer_instance

/-- Well-formedness of one `ComponentLocalization`: a `found` entry carries
a well-formed bounding box, every other status carries no box. -/
def WfLoc (l : LocalizationResult) : Prop :=
  (l.status = .found → WfOptBox l.bounding_box) ∧
    (l.status ≠ .found → l.bounding_box = none)

instance (l : LocalizationResult) : Decidable (WfLoc l) := by
  unfold WfLoc; infer_instance

/-- A confidence score in `[0, 1]`, as the data model requires of every
`StageResult`. -/
def ConfidenceInRange (c : ℚ) : Prop := 0 ≤ c ∧ c ≤ 1

instance (c : ℚ) : Decidable (ConfidenceInRange c) := by
  unfold ConfidenceInRange; infer_instance

/-- Modelled from the spec: the structural validation the Response
Assembler/Validator (spec 4.6) performs before returning a response — the
assembler itself is in the backend service missing from this repository.
It checks that bounding boxes are well-formed (`found` localizations carry
a well-formed box, other statuses carry none, overlay boxes are
well-formed), that confidence scores are in range, and that a
`troubleshoot_steps` response carries a non-empty step list. -/
def ValidResponse (r : APIResponse) : Prop :=
  (∀ l ∈ r.localization_results, WfLoc l ∧ ConfidenceInRange l.confidence) ∧
    (∀ v ∈ r.visualizations, WfBox v.bounding_box ∧ ConfidenceInRange v.confidence) ∧
    ConfidenceInRange r.device_info.confidence ∧
    (r.answer_type = .troubleshoot_steps → r.stepsOf ≠ [])

instance (r : APIResponse) : Decidable (ValidResponse r) := by
  unfold ValidResponse; infer_instance

/-! ## Gate Pipeline (Orchestrator)

The Gate Pipeline of spec section 4.1 lives in the backend service, which
is not part of this repository tree; it is modelled from the spec below. -/

/-- Modelled from the spec: the output of the single combined
Validation+Identification+Intent inference call (spec 4.1 gate 2), whose
producing code is in the missing backend.  It carries the image-validity
verdict, the device identification with its confidence, the safety flags
with the hazard description, the device-query mismatch verdict, the
ambiguity verdict and the parsed `AnswerType`. -/
structure CombinedGateOutput where
  supported : Bool
  device : DeviceInfo
  safety_flags : Bool
  hazard_description : String
  mismatch : Bool
  suggested_queries : List String
  ambiguous : Bool
  clarifying_options : List String
  intent : AnswerType
deriving DecidableEq, Repr

/-- Modelled from the spec: the orchestrator configuration the pipeline
consults (spec section 6): the device-confidence threshold and the
knowledge-grounding toggle. -/
structure PipelineConfig where
  confidence_threshold : ℚ
  grounding_enabled : Bool
deriving DecidableEq, Repr

/-- Modelled from the spec: the named routing decisions of the pipeline
state machine (spec 4.1 and design note on an explicit transition table);
the deciding code is in the missing backend. -/
inductive RouteDecision
  | safetyOverride
  | rejectedInvalid
  | needsBetterInput
  | rejectedMismatch
  | clarification
  | proceed
deriving DecidableEq, Repr

/-- Modelled from the spec: the single authoritative routing decision taken
after the combined gate (spec 4.1), whose code is in the missing backend.
The safety override is the highest-priority edge: it takes precedence over
every other routing decision.  The remaining edges follow the order the
spec lists them in: unsupported image, low device confidence, device-query
mismatch, ambiguous query, then proceed. -/
def route (cfg : PipelineConfig) (g : CombinedGateOutput) : RouteDecision :=
  if g.safety_flags then .safetyOverride
  else if ¬ g.supported then .rejectedInvalid
  else if g.device.confidence < cfg.confidence_threshold then .needsBetterInput
  else if g.mismatch then .rejectedMismatch
  else if g.ambiguous then .clarification
  else .proceed

/-- Modelled from the spec: whether an `AnswerType` requires component
targeting, so that the Spatial Localization gate runs (spec 4.1 gate 3);
the deciding code is in the missing backend. -/
def needsTargeting : AnswerType → Bool
  | .locate_only => true
  | .troubleshoot_steps => true
  | .mixed => true
  | _ => false

/-- Modelled from the spec: the outputs of the conditional later gates
(Spatial Localization and Content Generation, spec 4.1 gates 3 and 5) the
pipeline runs on the `proceed` path; their code is in the missing backend.
Each field is the result of one inference call. -/
structure LaterStages where
  localized : List LocalizationResult
  generated_diagnosis : Diagnosis
  generated_steps : List TroubleshootingStep
  generated_explanation : Option Explanation
deriving Repr

/-- Modelled from the spec: an empty device identification used when a
terminal response is produced before identification completes. -/
def emptyDevice : DeviceInfo :=
  { device_category := ""
    device_type := ""
    brand := ""
    model := ""
    brand_model_guidance := none
    confidence := 0 }

/-- Modelled from the spec: the terminal safety-warning-only response the
Safety Override produces (spec 4.1): `AnswerType = safety-warning-only`, a
diagnosis carrying the hazard as a non-null safety warning, and no
analytical content (no steps, no localizations, no overlays). -/
def safetyResponse (g : CombinedGateOutput) : APIResponse where
  answer_type := .safety_warning_only
  needs_clarification := false
  cannot_comply_reason := some .safety_risk
  device_info := g.device
  localization_results := []
  diagnosis := some
    { issue := g.hazard_description
      severity := .critical
      safety_warning := some g.hazard_description
      possible_causes := none
      indicators := none }
  troubleshooting_steps := none
  explanation := none
  visualizations := []
  audio_instructions := g.hazard_description
  clarifying_questions := none
  web_grounding_used := none
  grounding_sources := none

/-- Modelled from the spec: the terminal Rejected response for an
unsupported image (spec 4.1): `AnswerType = rejected-invalid-image`, no
steps, no localization results. -/
def rejectedResponse (g : CombinedGateOutput) : APIResponse where
  answer_type := .reject_invalid_image
  needs_clarification := false
  cannot_comply_reason := some .invalid_image
  device_info := g.device
  localization_results := []
  diagnosis := none
  troubleshooting_steps := none
  explanation := none
  visualizations := []
  audio_instructions := ""
  clarifying_questions := none
  web_grounding_used := none
  grounding_sources := none

/-- Modelled from the spec: the terminal NeedsBetterInput response for a
low-confidence identification (spec 4.1). -/
def betterInputResponse (g : CombinedGateOutput) : APIResponse where
  answer_type := .ask_for_better_input
  needs_clarification := false
  cannot_comply_reason := some .low_confidence
  device_info := g.device
  localization_results := []
  diagnosis := none
  troubleshooting_steps := none
  explanation := none
  visualizations := []
  audio_instructions := ""
  clarifying_questions := none
  web_grounding_used := none
  grounding_sources := none

/-- Modelled from the spec: the terminal Rejected response for a
device-query mismatch, with suggested alternative queries (spec 4.1). -/
def mismatchResponse (g : CombinedGateOutput) : APIResponse where
  answer_type := .reject_invalid_image
  needs_clarification := false
  cannot_comply_reason := some .not_present
  device_info := g.device
  localization_results := []
  diagnosis := none
  troubleshooting_steps := none
  explanation := none
  visualizations := []
  audio_instructions := ""
  clarifying_questions := some g.suggested_queries
  web_grounding_used := none
  grounding_sources := none

/-- Modelled from the spec: the terminal ClarificationNeeded response with
generated clarifying options (spec 4.1). -/
def clarificationResponse (g : CombinedGateOutput) : APIResponse where
  answer_type := .ask_clarifying_questions
  needs_clarification := true
  cannot_comply_reason := none
  device_info := g.device
  localization_results := []
  diagnosis := none
  troubleshooting_steps := none
  explanation := none
  visualizations := []
  audio_instructions := ""
  clarifying_questions := some g.clarifying_options
  web_grounding_used := none
  grounding_sources := none

/-- Modelled from the spec: the audio-narration computation of Response
Assembly (spec 4.1 gate 6): the concatenation of the step instructions in
order; the assembling code is in the missing backend. -/
def audioNarration (steps : List TroubleshootingStep) : String :=
  String.join (steps.map (·.instruction))

/-- Modelled from the spec: Response Assembly (spec 4.1 gate 6 and 4.6)
merging the accumulated stage results of a completed pipeline into one
response object; the assembling code is in the missing backend.  The
`audio_instructions` field is the concatenation of the step instructions
in order, and the optional step list is present exactly when steps were
generated. -/
def assemble (g : CombinedGateOutput) (st : LaterStages)
    (locs : List LocalizationResult) : APIResponse where
  answer_type := g.intent
  needs_clarification := false
  cannot_comply_reason := none
  device_info := g.device
  localization_results := locs
  diagnosis := some st.generated_diagnosis
  troubleshooting_steps :=
    if st.generated_steps.isEmpty then none else some st.generated_steps
  explanation := st.generated_explanation
  visualizations := []
  audio_instructions := audioNarration st.generated_steps
  clarifying_questions := none
  web_grounding_used := none
  grounding_sources := none

/-- Modelled from the spec: the full post-gate pipeline `process` (spec
4.1), whose code is in the missing backend.  Takes the combined gate
output (produced by the first inference call) and the later-stage results,
and returns the assembled response together with the total number of
inference calls made.  Every terminal branch reached from the combined
gate makes exactly the one combined call; the `proceed` branch adds one
localization call when the `AnswerType` requires targeting and one content
generation call. -/
def process (cfg : PipelineConfig) (st : LaterStages)
    (g : CombinedGateOutput) : APIResponse × ℕ :=
  match route cfg g with
  | .safetyOverride => (safetyResponse g, 1)
  | .rejectedInvalid => (rejectedResponse g, 1)
  | .needsBetterInput => (betterInputResponse g, 1)
  | .rejectedMismatch => (mismatchResponse g, 1)
  | .clarification => (clarificationResponse g, 1)
  | .proceed =>
    let locCalls := if needsTargeting g.intent then 1 else 0
    let locs := if needsTargeting g.intent then st.localized else []
    (assemble g st locs, 1 + locCalls + 1)

/-! ## Response Cache

The Response Cache of spec section 4.3 lives in the backend service,
which is not part of this repository tree; it is modelled from the spec
below. -/

/-- Modelled from the spec: query-text normalization used for cache
fingerprinting (spec 4.3 data model: "normalized query"); the normalizing
code is in the missing backend.  Trims surrounding whitespace and
lower-cases the text. -/
def normalizeQuery (q : String) : String :=
  ⟨((q.data.dropWhile Char.isWhitespace).reverse.dropWhile
      Char.isWhitespace).reverse.map Char.toLower⟩

/-- Modelled from the spec: a cache fingerprint — the deterministic content
key of (image content, normalized query, stage identifier) of spec 4.3;
the fingerprinting code is in the missing backend.  The content hash is
idealized as the content itself (a deterministic injective hash). -/
structure Fingerprint where
  image_hash : String
  normalized_query : String
  stage : String
deriving DecidableEq, Repr

/-- Modelled from the spec: fingerprint computation from the raw image
content and the raw query text. -/
def fingerprintOf (imageContent query stage : String) : Fingerprint :=
  ⟨imageContent, normalizeQuery query, stage⟩

/-- Modelled from the spec: a `CacheEntry` (spec section 3): the stored
stage result, its creation timestamp and its expiry timestamp. -/
structure CacheEntry (α : Type) where
  value : α
  created : ℕ
  expiry : ℕ
deriving DecidableEq, Repr

/-- Modelled from the spec: the Response Cache store, an association of
fingerprints to entries (newest first, so a rewrite is last-write-wins). -/
def Cache (α : Type) : Type := List (Fingerprint × CacheEntry α)

/-- Lookup of the newest entry stored under a fingerprint. -/
def cacheLookup {α : Type} (fp : Fingerprint) : Cache α → Option (CacheEntry α)
  | [] => none
  | (k, e) :: rest => if k = fp then some e else cacheLookup fp rest

/-- Modelled from the spec: `get(fingerprint)` of the Response Cache (spec
4.3), whose code is in the missing backend.  Returns the stored stage
result only while the entry is within its TTL: an entry whose expiry has
been reached is never served. -/
def cacheGet {α : Type} (c : Cache α) (fp : Fingerprint) (now : ℕ) : Option α :=
  match cacheLookup fp c with
  | some e => if now < e.expiry then some e.value else none
  | none => none

/-- Modelled from the spec: `put(fingerprint, result, ttl)` of the Response
Cache (spec 4.3), whose code is in the missing backend.  Writes a fresh
entry created `now` and expiring at `now + ttl`. -/
def cachePut {α : Type} (c : Cache α) (fp : Fingerprint) (v : α) (ttl now : ℕ) : Cache α :=
  (fp, ⟨v, now, now + ttl⟩) :: c

/-- Modelled from the spec: the read-through invocation path of the
Inference Client (spec 4.2/4.3), whose code is in the missing backend.
Every invocation first checks the Response Cache; a hit short-circuits
everything downstream (zero outbound calls), a miss makes the one real
call through `infer` (a deterministic function of the fingerprint) and
writes the cache.  Returns the stage result, the number of outbound
inference calls made, and the updated cache. -/
def invokeStage {α : Type} (c : Cache α) (infer : Fingerprint → α)
    (fp : Fingerprint) (ttl now : ℕ) : α × ℕ × Cache α :=
  match cacheGet c fp now with
  | some v => (v, 0, c)
  | none => (infer fp, 1, cachePut c fp (infer fp) ttl now)

/-! ## Circuit Breaker

The Circuit Breaker of spec section 4.4 lives in the backend service,
which is not part of this repository tree; it is modelled from the spec
below. -/

/-- Modelled from the spec: the classified outcome of one upstream call
(spec 4.2); quota rejections count as failures for the breaker. -/
inductive CallOutcome
  | ok
  | transient
  | quotaExceeded
deriving DecidableEq, Repr

/-- Whether a call outcome counts as a failure for the breaker (every
outcome except success, spec 4.4). -/
def CallOutcome.isFailure : CallOutcome → Bool
  | .ok => false
  | _ => true

/-- Modelled from the spec: the `CircuitState` of spec section 3 — Closed
with its consecutive-failure counter, Open with the timestamp of the
transition, or Half-Open (probing). -/
inductive CircuitState
  | closed (consecutive_failures : ℕ)
  | opened (opened_at : ℕ)
  | halfOpen
deriving DecidableEq, Repr

/-- Modelled from the spec: the breaker configuration — the consecutive
failure threshold and the cool-down duration (spec 4.4 and section 6). -/
structure BreakerConfig where
  threshold : ℕ
  cooldown : ℕ
deriving DecidableEq, Repr

/-- The visible result of a call made through the breaker: either the
upstream outcome passed through, or an immediate `ServiceUnavailable`
fast-fail that never contacted upstream. -/
inductive BreakerResult
  | passed (outcome : CallOutcome)
  | fastFail
deriving DecidableEq, Repr

/-- Modelled from the spec: the timer edge of the breaker (spec 4.4):
Open becomes Half-Open once the cool-down has elapsed; no other state is
affected by time. -/
def advanceBreaker (cfg : BreakerConfig) (s : CircuitState) (now : ℕ) : CircuitState :=
  match s with
  | .opened t0 => if t0 + cfg.cooldown ≤ now then .halfOpen else .opened t0
  | s => s

/-- Modelled from the spec: one call made through the Circuit Breaker
(spec 4.4), whose code is in the missing backend.  Returns the visible
result, whether upstream was contacted, and the next state.  Closed passes
the call through, resetting the failure counter on success and opening at
the configured threshold of consecutive failures; Open (cool-down not yet
elapsed) fails fast without contacting upstream; Half-Open admits the
single probe call, whose outcome alone decides the next state. -/
def breakerCall (cfg : BreakerConfig) (s : CircuitState) (now : ℕ)
    (upstream : CallOutcome) : BreakerResult × Bool × CircuitState :=
  match advanceBreaker cfg s now with
  | .closed f =>
    match upstream with
    | .ok => (.passed .ok, true, .closed 0)
    | o => (.passed o, true,
        if cfg.threshold ≤ f + 1 then .opened now else .closed (f + 1))
  | .opened t0 => (.fastFail, false, .opened t0)
  | .halfOpen =>
    match upstream with
    | .ok => (.passed .ok, true, .closed 0)
    | o => (.passed o, true, .opened now)

/-- The state after a sequence of timed calls through the breaker. -/
def breakerRun (cfg : BreakerConfig) (s : CircuitState) :
    List (ℕ × CallOutcome) → CircuitState
  | [] => s
  | (t, o) :: rest => breakerRun cfg (breakerCall cfg s t o).2.2 rest

/-! ## Quota Tracker

The Quota Tracker of spec section 4.5 lives in the backend service, which
is not part of this repository tree; it is modelled from the spec below. -/

/-- Modelled from the spec: the day bucket of a timestamp in seconds (the
per-day `QuotaWindow` of spec section 3). -/
def dayOf (t : ℕ) : ℕ := t / 86400

/-- Modelled from the spec: the per-day `QuotaWindow` state — the counter
and the day bucket it is bound to (spec section 3). -/
structure QuotaState where
  count : ℕ
  day : ℕ
deriving DecidableEq, Repr

/-- The answer of the Quota Tracker to one attempted call. -/
inductive QuotaResult
  | ok
  | quotaExceeded
deriving DecidableEq, Repr

/-- Modelled from the spec: the window reset at the day boundary (spec
4.5/section 3: "reset when the bucket's time window elapses"); the
resetting code is in the missing backend.  A call in a new day starts from
a zero counter. -/
def quotaRollover (s : QuotaState) (t : ℕ) : QuotaState :=
  if dayOf t = s.day then s else ⟨0, dayOf t⟩

/-- Modelled from the spec: one attempted outbound call recorded by the
Quota Tracker (spec 4.5), whose code is in the missing backend.  After the
day-boundary rollover, a counter at or past the limit answers
`QuotaExceeded` without incrementing; otherwise the counter increments and
the call is admitted. -/
def quotaCall (limit : ℕ) (s : QuotaState) (t : ℕ) : QuotaResult × QuotaState :=
  let s1 := quotaRollover s t
  if limit ≤ s1.count then (.quotaExceeded, s1) else (.ok, ⟨s1.count + 1, s1.day⟩)

/-- The results and final state of a sequence of timed calls through the
Quota Tracker. -/
def quotaRun (limit : ℕ) (s : QuotaState) : List ℕ → List QuotaResult × QuotaState
  | [] => ([], s)
  | t :: ts =>
    let r := quotaCall limit s t
    let rest := quotaRun limit r.2 ts
    (r.1 :: rest.1, rest.2)

/-! ## Concrete sample inputs used by the witnesses -/

/-- A concrete generated diagnosis used in sample pipeline runs. -/
def sampleDiagnosis : Diagnosis :=
  { issue := "Example issue"
    severity := .low
    safety_warning := none
    possible_causes := none
    indicators := none }

/-- Concrete later-stage outputs with no generated steps. -/
def sampleStages : LaterStages :=
  { localized := []
    generated_diagnosis := sampleDiagnosis
    generated_steps := []
    generated_explanation := none }

/-- Concrete later-stage outputs with two generated steps. -/
def sampleStagesWithSteps : LaterStages :=
  { localized := []
    generated_diagnosis := sampleDiagnosis
    generated_steps :=
      [ { step := 1
          instruction := "Unplug the device. "
          visual_cue := ""
          estimated_time := "1 minute"
          overlay_reference := none
          safety_note := none },
        { step := 2
          instruction := "Wait thirty seconds and plug it back in."
          visual_cue := ""
          estimated_time := "1 minute"
          overlay_reference := none
          safety_note := none } ]
    generated_explanation := none }

/-- A concrete pipeline configuration: confidence threshold 0.7,
grounding enabled. -/
def sampleConfig : PipelineConfig :=
  { confidence_threshold := mkRat 7 10, grounding_enabled := true }

/-- A concrete combined-gate output whose safety flags are set while every
other gate signal is simultaneously adverse: the image-validity verdict is
unsupported, the device confidence 0 is below any positive threshold, and
the mismatch and ambiguity verdicts are both set. -/
def hazardGate : CombinedGateOutput :=
  { supported := false
    device := emptyDevice
    safety_flags := true
    hazard_description := "Smoke detected. Unplug the device immediately and contact a professional."
    mismatch := true
    suggested_queries := []
    ambiguous := true
    clarifying_options := []
    intent := .troubleshoot_steps }

/-- A concrete combined-gate output for an unsupported image (a document
photo) with no safety flags. -/
def invalidImageGate : CombinedGateOutput :=
  { supported := false
    device := emptyDevice
    safety_flags := false
    hazard_description := ""
    mismatch := false
    suggested_queries := []
    ambiguous := false
    clarifying_options := []
    intent := .troubleshoot_steps }

/-- A concrete combined-gate output that proceeds through the full
pipeline. -/
def proceedGate : CombinedGateOutput :=
  { supported := true
    device :=
      { device_category := "Printers"
        device_type := "Laser Printer"
        brand := "ExampleBrand"
        model := "X100"
        brand_model_guidance := none
        confidence := mkRat 9 10 }
    safety_flags := false
    hazard_description := ""
    mismatch := false
    suggested_queries := []
    ambiguous := false
    clarifying_options := []
    intent := .troubleshoot_steps }

/-! ## Theorems -/

/-- Claim C9: the file-upload interface accepts a file — invoking
`onFileSelect` on it — exactly when its MIME type is one of image/jpeg,
image/jpg, image/png, video/mp4, video/quicktime and its size is at most
200 MB (the code rejects strictly larger files only, so exactly 200 MB is
accepted); for any other file `onFileSelect` is never invoked and an
error message is set instead. -/
theorem upload_accepts_iff (f : JsFile) :
    (handleFileChange f = some f ↔ f.type ∈ validTypes ∧ f.size ≤ maxSize) ∧
    (¬ (f.type ∈ validTypes ∧ f.size ≤ maxSize) →
      handleFileChange f = none ∧ (validateFile f).2 ≠ none) := by
  unfold handleFileChange validateFile
  by_cases h1 : f.type ∈ validTypes
  · have hc : validTypes.contains f.type = true := by simpa using h1
    by_cases h2 : f.size ≤ maxSize
    · have h3 : ¬ maxSize < f.size := not_lt.mpr h2
      simp [hc, h3, h1, h2]
    · have h3 : maxSize < f.size := not_le.mp h2
      simp [hc, h3, h1, h2]
  · have hc : ¬ validTypes.contains f.type = true := by simpa using h1
    simp [hc, h1]

/-- Witness for C9: a 1 KB JPEG is accepted; a PDF of the same size is
refused with an error message. -/
theorem upload_accepts_iff_witness :
    (("image/jpeg" ∈ validTypes ∧ 1024 ≤ maxSize) ∧
      handleFileChange ⟨"a.jpg", "image/jpeg", 1024⟩ = some ⟨"a.jpg", "image/jpeg", 1024⟩) ∧
    (¬ ("application/pdf" ∈ validTypes ∧ 1024 ≤ maxSize) ∧
      handleFileChange ⟨"a.pdf", "application/pdf", 1024⟩ = none ∧
      (validateFile ⟨"a.pdf", "application/pdf", 1024⟩).2 ≠ none) := by
  have hin : ("image/jpeg" ∈ validTypes ∧ 1024 ≤ maxSize) := by decide
  have hout : ¬ ("application/pdf" ∈ validTypes ∧ 1024 ≤ maxSize) := by decide
  exact ⟨⟨hin, (upload_accepts_iff ⟨"a.jpg", "image/jpeg", 1024⟩).1.mpr hin⟩,
    hout, (upload_accepts_iff ⟨"a.pdf", "application/pdf", 1024⟩).2 hout⟩

/-- Claim C7: the inbound request operation fails with a fatal
`InputError` — making no pipeline or inference call — exactly when the
payload is unreadable (`formData()` throws) or invalid: the image field
missing, or the query text missing or empty (JavaScript falsiness); and
for every request carrying both an image and a non-empty query it
succeeds. -/
theorem post_input_error_iff :
    ((post none).1.isError = true) ∧
    (∀ f : TroubleshootForm,
      ((post (some f)).1.isError = true ↔
        (f.image = none ∨ jsFalsyStr f.query = true))) ∧
    (∀ (f : TroubleshootForm) (img : JsFile) (q : String),
      f.image = some img → f.query = some q → q ≠ "" →
      (post (some f)).1 = .success "Troubleshooting request received successfully" ∧
      (post (some f)).2 = 0) := by
  refine ⟨rfl, ?_, ?_⟩
  · intro f
    unfold post
    by_cases hi : f.image.isNone
    · simp [hi, PostResponse.isError, Option.isNone_iff_eq_none.mp hi]
    · have hi2 : ¬ f.image = none := by simpa [Option.isNone_iff_eq_none] using hi
      by_cases hq : jsFalsyStr f.query
      · simp [hi, hq, PostResponse.isError]
      · simp [hi, hq, hi2, PostResponse.isError]
  · intro f img q himg hq hne
    have hi : ¬ f.image.isNone := by simp [himg]
    have hfq : ¬ jsFalsyStr f.query := by
      simp [hq, jsFalsyStr, String.isEmpty_iff, hne]
    unfold post
    simp [hi, hfq]

/-- Witness for C7: a form carrying a JPEG and the query "hi" succeeds
with no pipeline call. -/
theorem post_input_error_iff_witness :
    (post (some ⟨some ⟨"a.jpg", "image/jpeg", 1024⟩, some "hi", none⟩)).1 =
      .success "Troubleshooting request received successfully" ∧
    (post (some ⟨some ⟨"a.jpg", "image/jpeg", 1024⟩, some "hi", none⟩)).2 = 0 :=
  post_input_error_iff.2.2 ⟨some ⟨"a.jpg", "image/jpeg", 1024⟩, some "hi", none⟩
    ⟨"a.jpg", "image/jpeg", 1024⟩ "hi" rfl rfl (by decide)

/-- Claim C10: the overlay style computation is total (its embedding is a
structurally terminating function whose pixel-fallback pass
`getComponentStyleRetry` never recurses) and returns `none` rather than
throwing when the box is absent, has non-numeric or NaN coordinates
(embedded as `none` fields), or has `x_min >= x_max` or `y_min >= y_max`;
and coordinates outside the accepted [-0.05, 1.05] band are reinterpreted
as pixels and divided by the natural image dimensions before the single
retry pass renders them. -/
theorem overlay_style_total_and_safe :
    (∀ dims : ImgDims, getComponentStyle dims none = none) ∧
    (∀ (dims : ImgDims) (b : RawBBox),
      b.x_min = none ∨ b.y_min = none ∨ b.x_max = none ∨ b.y_max = none →
      getComponentStyle dims (some b) = none) ∧
    (∀ (dims : ImgDims) (x0 y0 x1 y1 : ℚ), x1 ≤ x0 ∨ y1 ≤ y0 →
      getComponentStyle dims (some ⟨some x0, some y0, some x1, some y1⟩) = none) ∧
    (∀ (dims : ImgDims) (x0 y0 x1 y1 : ℚ),
      ¬ isNormalizedBox x0 y0 x1 y1 → dims.width ≠ 0 → dims.height ≠ 0 →
      getComponentStyle dims (some ⟨some x0, some y0, some x1, some y1⟩) =
        getComponentStyleRetry (x0 / (dims.width : ℚ)) (y0 / (dims.height : ℚ))
          (x1 / (dims.width : ℚ)) (y1 / (dims.height : ℚ))) := by
  refine ⟨fun dims => rfl, ?_, ?_, ?_⟩
  · intro dims b h
    obtain ⟨x0, y0, x1, y1⟩ := b
    rcases x0 with _ | x0 <;> rcases y0 with _ | y0 <;>
      rcases x1 with _ | x1 <;> rcases y1 with _ | y1 <;>
      first
        | rfl
        | simp at h
  · intro dims x0 y0 x1 y1 h
    by_cases hn : isNormalizedBox x0 y0 x1 y1
    · simp [getComponentStyle, hn, h]
    · by_cases hw : dims.width = 0 ∨ dims.height = 0
      · simp [getComponentStyle, hn, hw]
      · push_neg at hw
        have hw1 : (0 : ℚ) < dims.width := by
          exact_mod_cast Nat.pos_of_ne_zero hw.1
        have hh1 : (0 : ℚ) < dims.height := by
          exact_mod_cast Nat.pos_of_ne_zero hw.2
        have hdiv : x1 / (dims.width : ℚ) ≤ x0 / (dims.width : ℚ) ∨
            y1 / (dims.height : ℚ) ≤ y0 / (dims.height : ℚ) := by
          rcases h with h | h
          · left; gcongr
          · right; gcongr
        have hstep : getComponentStyle dims (some ⟨some x0, some y0, some x1, some y1⟩) =
            getComponentStyleRetry (x0 / (dims.width : ℚ)) (y0 / (dims.height : ℚ))
              (x1 / (dims.width : ℚ)) (y1 / (dims.height : ℚ)) := by
          simp [getComponentStyle, hn, hw.1, hw.2]
        rw [hstep]
        unfold getComponentStyleRetry
        by_cases hn2 : isNormalizedBox (x0 / (dims.width : ℚ)) (y0 / (dims.height : ℚ))
            (x1 / (dims.width : ℚ)) (y1 / (dims.height : ℚ))
        · simp [hn2, hdiv]
        · simp [hn2]
  · intro dims x0 y0 x1 y1 hn hw hh
    simp [getComponentStyle, hn, hw, hh]

/-- Witness for C10: an inverted box yields no style, and a pixel box
(80,60)-(160,300) on an 800x600 image is divided by the natural
dimensions for the retry pass. -/
theorem overlay_style_total_and_safe_witness :
    ((mkRat 1 10 ≤ mkRat 3 10 ∨ mkRat 9 10 ≤ mkRat 3 10) ∧
      getComponentStyle ⟨800, 600⟩
        (some ⟨some (mkRat 3 10), some (mkRat 3 10),
          some (mkRat 1 10), some (mkRat 9 10)⟩) = none) ∧
    (¬ isNormalizedBox 80 60 160 300 ∧
      getComponentStyle ⟨800, 600⟩ (some ⟨some 80, some 60, some 160, some 300⟩) =
        getComponentStyleRetry (80 / ((800 : ℕ) : ℚ)) (60 / ((600 : ℕ) : ℚ))
          (160 / ((800 : ℕ) : ℚ)) (300 / ((600 : ℕ) : ℚ))) := by
  have h1 : mkRat 1 10 ≤ mkRat 3 10 ∨ mkRat 9 10 ≤ mkRat 3 10 := by decide
  have h2 : ¬ isNormalizedBox 80 60 160 300 := by decide
  exact ⟨⟨h1, overlay_style_total_and_safe.2.2.1 ⟨800, 600⟩ (mkRat 3 10) (mkRat 3 10)
      (mkRat 1 10) (mkRat 9 10) h1⟩,
    h2, overlay_style_total_and_safe.2.2.2 ⟨800, 600⟩ 80 60 160 300 h2
      (by decide) (by decide)⟩

/-- Claim C3: in every response passing the assembler's structural
validation, every `ComponentLocalization` with status `found` carries a
bounding box with `x_min < x_max`, `y_min < y_max` and all four
coordinates in [0,1]; localizations with any other status carry no box;
and every `Visualization` overlay box satisfies the same bounds. -/
theorem found_boxes_wellformed (r : APIResponse) (h : ValidResponse r) :
    (∀ l ∈ r.localization_results,
      (l.status = .found → ∃ b, l.bounding_box = some b ∧ WfBox b) ∧
      (l.status ≠ .found → l.bounding_box = none)) ∧
    (∀ v ∈ r.visualizations, WfBox v.bounding_box) := by
  obtain ⟨hl, hv, -, -⟩ := h
  constructor
  · intro l hm
    obtain ⟨⟨hf, ho⟩, -⟩ := hl l hm
    refine ⟨?_, ho⟩
    intro hs
    have hwf := hf hs
    cases hb : l.bounding_box with
    | none => rw [hb] at hwf; exact absurd hwf (by simp [WfOptBox])
    | some b => rw [hb] at hwf; exact ⟨b, rfl, hwf⟩
  · intro v hm
    exact (hv v hm).1

/-- Witness for C3: the concrete mock session response of the results page
passes validation, so its found-status boxes are all well-formed. -/
theorem found_boxes_wellformed_witness :
    ValidResponse mockResponse ∧
    ((∀ l ∈ mockResponse.localization_results,
      (l.status = .found → ∃ b, l.bounding_box = some b ∧ WfBox b) ∧
      (l.status ≠ .found → l.bounding_box = none)) ∧
    (∀ v ∈ mockResponse.visualizations, WfBox v.bounding_box)) := by
  have h : ValidResponse mockResponse := by decide
  exact ⟨h, found_boxes_wellformed mockResponse h⟩

/-- Claim C8: in every response produced by the modelled Response
Assembly stage that contains troubleshooting steps, the audio-narration
string equals the concatenation of the step instructions in order. -/
theorem audio_is_step_concat (g : CombinedGateOutput) (st : LaterStages)
    (locs : List LocalizationResult) (steps : List TroubleshootingStep)
    (h : (assemble g st locs).troubleshooting_steps = some steps) :
    (assemble g st locs).audio_instructions =
      String.join (steps.map (·.instruction)) := by
  unfold assemble at h ⊢
  dsimp at h ⊢
  by_cases he : st.generated_steps.isEmpty
  · rw [if_pos he] at h
    cases h
  · rw [if_neg he] at h
    injection h with h
    subst h
    rfl

/-- Witness for C8: a concrete assembled response with two steps narrates
exactly their concatenated instructions. -/
theorem audio_is_step_concat_witness :
    (assemble proceedGate sampleStagesWithSteps []).troubleshooting_steps =
      some sampleStagesWithSteps.generated_steps ∧
    (assemble proceedGate sampleStagesWithSteps []).audio_instructions =
      String.join (sampleStagesWithSteps.generated_steps.map (·.instruction)) := by
  have h : (assemble proceedGate sampleStagesWithSteps []).troubleshooting_steps =
      some sampleStagesWithSteps.generated_steps := rfl
  exact ⟨h, audio_is_step_concat proceedGate sampleStagesWithSteps []
    sampleStagesWithSteps.generated_steps h⟩

/-- Claim C1: whenever the combined analysis gate sets the safety flags,
the final response has AnswerType safety-warning-only, a non-null
safety_warning field and empty troubleshooting steps, regardless of what
the other gate signals (validity verdict, confidence, mismatch,
ambiguity) would have concluded, and no inference call beyond the first
combined gate is made: the safety override is the highest-priority
routing decision. -/
theorem safety_override_wins (cfg : PipelineConfig) (st : LaterStages)
    (g : CombinedGateOutput) (h : g.safety_flags = true) :
    (process cfg st g).1.answer_type = .safety_warning_only ∧
    (∃ d, (process cfg st g).1.diagnosis = some d ∧ d.safety_warning ≠ none) ∧
    (process cfg st g).1.stepsOf = [] ∧
    (process cfg st g).2 = 1 := by
  have hr : route cfg g = .safetyOverride := by simp [route, h]
  have hp : process cfg st g = (safetyResponse g, 1) := by
    unfold process
    rw [hr]
  rw [hp]
  exact ⟨rfl, ⟨_, rfl, by simp [safetyResponse]⟩, rfl, rfl⟩

/-- Witness for C1: a gate output whose safety flags are set while the
validity, confidence, mismatch and ambiguity signals are all
simultaneously adverse still routes to safety-warning-only. -/
theorem safety_override_wins_witness :
    hazardGate.safety_flags = true ∧
    hazardGate.supported = false ∧
    hazardGate.device.confidence < sampleConfig.confidence_threshold ∧
    hazardGate.mismatch = true ∧
    hazardGate.ambiguous = true ∧
    ((process sampleConfig sampleStages hazardGate).1.answer_type = .safety_warning_only ∧
      (∃ d, (process sampleConfig sampleStages hazardGate).1.diagnosis = some d ∧
        d.safety_warning ≠ none) ∧
      (process sampleConfig sampleStages hazardGate).1.stepsOf = [] ∧
      (process sampleConfig sampleStages hazardGate).2 = 1) :=
  ⟨rfl, rfl, by decide, rfl, rfl,
    safety_override_wins sampleConfig sampleStages hazardGate rfl⟩

/-- Counterexample for C2 as stated: a request whose validation gate
signals an unsupported image but whose safety flags are also set is
routed to safety-warning-only (the higher-priority edge), not to
rejected-invalid-image. -/
theorem rejected_image_not_universal :
    hazardGate.supported = false ∧
    (process sampleConfig sampleStages hazardGate).1.answer_type ≠ .reject_invalid_image :=
  ⟨rfl, by decide⟩

/-- Claim C2 (amended): for every request whose validation gate signals an
unsupported image and whose safety flags are not set, the response has
AnswerType rejected-invalid-image, empty troubleshooting steps and empty
localization results, and no inference call beyond the first combined
gate occurs. -/
theorem invalid_image_rejected (cfg : PipelineConfig) (st : LaterStages)
    (g : CombinedGateOutput) (h1 : g.supported = false) (h2 : g.safety_flags = false) :
    (process cfg st g).1.answer_type = .reject_invalid_image ∧
    (process cfg st g).1.stepsOf = [] ∧
    (process cfg st g).1.localization_results = [] ∧
    (process cfg st g).2 = 1 := by
  have hr : route cfg g = .rejectedInvalid := by simp [route, h1, h2]
  have hp : process cfg st g = (rejectedResponse g, 1) := by
    unfold process
    rw [hr]
  rw [hp]
  exact ⟨rfl, rfl, rfl, rfl⟩

/-- Witness for C2: a document photo (unsupported image, no hazard) is
rejected with an empty response body after the single combined call. -/
theorem invalid_image_rejected_witness :
    invalidImageGate.supported = false ∧
    invalidImageGate.safety_flags = false ∧
    ((process sampleConfig sampleStages invalidImageGate).1.answer_type = .reject_invalid_image ∧
      (process sampleConfig sampleStages invalidImageGate).1.stepsOf = [] ∧
      (process sampleConfig sampleStages invalidImageGate).1.localization_results = [] ∧
      (process sampleConfig sampleStages invalidImageGate).2 = 1) :=
  ⟨rfl, rfl, invalid_image_rejected sampleConfig sampleStages invalidImageGate rfl rfl⟩

/-- Claim C4: when a request computes and caches a stage result, a second
request with the same image content and the same normalized query within
the TTL makes zero additional outbound inference calls and returns the
same result; and the cache never serves an entry at or past its expiry. -/
theorem cache_second_request_hits :
    (∀ (α : Type) (c : Cache α) (infer : Fingerprint → α)
      (img q1 q2 stage : String) (ttl t1 t2 : ℕ),
      normalizeQuery q1 = normalizeQuery q2 →
      cacheGet c (fingerprintOf img q1 stage) t1 = none →
      t1 ≤ t2 → t2 < t1 + ttl →
      (invokeStage (invokeStage c infer (fingerprintOf img q1 stage) ttl t1).2.2
        infer (fingerprintOf img q2 stage) ttl t2).2.1 = 0 ∧
      (invokeStage (invokeStage c infer (fingerprintOf img q1 stage) ttl t1).2.2
        infer (fingerprintOf img q2 stage) ttl t2).1 =
        (invokeStage c infer (fingerprintOf img q1 stage) ttl t1).1) ∧
    (∀ (α : Type) (c : Cache α) (fp : Fingerprint) (now : ℕ) (v : α),
      cacheGet c fp now = some v →
      ∃ e, cacheLookup fp c = some e ∧ now < e.expiry ∧ e.value = v) := by
  constructor
  · intro α c infer img q1 q2 stage ttl t1 t2 hq hmiss ht12 httl
    have hfp : fingerprintOf img q2 stage = fingerprintOf img q1 stage := by
      unfold fingerprintOf
      rw [hq]
    rw [hfp]
    have h1 : invokeStage c infer (fingerprintOf img q1 stage) ttl t1 =
        (infer (fingerprintOf img q1 stage), 1,
          cachePut c (fingerprintOf img q1 stage)
            (infer (fingerprintOf img q1 stage)) ttl t1) := by
      unfold invokeStage
      rw [hmiss]
    rw [h1]
    have h2 : cacheGet (cachePut c (fingerprintOf img q1 stage)
        (infer (fingerprintOf img q1 stage)) ttl t1) (fingerprintOf img q1 stage) t2 =
        some (infer (fingerprintOf img q1 stage)) := by
      unfold cacheGet cachePut cacheLookup
      rw [if_pos rfl]
      simp [httl]
    unfold invokeStage
    rw [h2]
    exact ⟨rfl, rfl⟩
  · intro α c fp now v h
    unfold cacheGet at h
    cases hl : cacheLookup fp c with
    | none =>
      simp only [hl] at h
      cases h
    | some e =>
      simp only [hl] at h
      by_cases hx : now < e.expiry
      · rw [if_pos hx] at h
        injection h with h
        exact ⟨e, rfl, hx, h⟩
      · rw [if_neg hx] at h
        cases h

/-- Witness for C4: two requests with the same image and queries that
normalize identically, 299 seconds apart with a 300-second TTL, hit the
cache on the second request and return the first result. -/
theorem cache_second_request_hits_witness :
    normalizeQuery "  How do I fix a Paper Jam " = normalizeQuery "how do i fix a paper jam" ∧
    ((invokeStage (invokeStage ([] : Cache ℕ) (fun _ => 42)
        (fingerprintOf "imagebytes" "  How do I fix a Paper Jam " "combined") 300 100).2.2
        (fun _ => 42) (fingerprintOf "imagebytes" "how do i fix a paper jam" "combined")
        300 399).2.1 = 0 ∧
      (invokeStage (invokeStage ([] : Cache ℕ) (fun _ => 42)
        (fingerprintOf "imagebytes" "  How do I fix a Paper Jam " "combined") 300 100).2.2
        (fun _ => 42) (fingerprintOf "imagebytes" "how do i fix a paper jam" "combined")
        300 399).1 =
        (invokeStage ([] : Cache ℕ) (fun _ => 42)
          (fingerprintOf "imagebytes" "  How do I fix a Paper Jam " "combined") 300 100).1) := by
  have hq : normalizeQuery "  How do I fix a Paper Jam " =
      normalizeQuery "how do i fix a paper jam" := by decide
  exact ⟨hq, cache_second_request_hits.1 ℕ [] (fun _ => 42) "imagebytes"
    "  How do I fix a Paper Jam " "how do i fix a paper jam" "combined" 300 100 399
    hq rfl (by norm_num) (by norm_num)⟩

/-- Helper: while the consecutive-failure count stays below the threshold,
transient failures keep the breaker Closed and increment the counter. -/
theorem breakerRun_closed_below (cfg : BreakerConfig) (t : ℕ) :
    ∀ (k f : ℕ), f + k < cfg.threshold →
      breakerRun cfg (.closed f) (List.replicate k (t, .transient)) = .closed (f + k) := by
  intro k
  induction k with
  | zero =>
    intro f h
    simp [breakerRun]
  | succ n ih =>
    intro f h
    rw [List.replicate_succ]
    simp only [breakerRun]
    have hb : (breakerCall cfg (.closed f) t .transient).2.2 = .closed (f + 1) := by
      have hlt : ¬ cfg.threshold ≤ f + 1 := by omega
      simp [breakerCall, advanceBreaker, hlt]
    rw [hb]
    have := ih (f + 1) (by omega)
    rw [this]
    congr 1
    omega

/-- Helper: the transient failure that brings the consecutive-failure
count up to the threshold opens the breaker. -/
theorem breakerRun_closed_opens (cfg : BreakerConfig) (t : ℕ) :
    ∀ (k f : ℕ), f + k = cfg.threshold → 0 < k →
      breakerRun cfg (.closed f) (List.replicate k (t, .transient)) = .opened t := by
  intro k
  induction k with
  | zero =>
    intro f h hk
    omega
  | succ n ih =>
    intro f h hk
    rw [List.replicate_succ]
    simp only [breakerRun]
    rcases Nat.eq_zero_or_pos n with h0 | hpos
    · subst h0
      have hb : (breakerCall cfg (.closed f) t .transient).2.2 = .opened t := by
        have hge : cfg.threshold ≤ f + 1 := by omega
        simp [breakerCall, advanceBreaker, hge]
      rw [hb]
      simp [breakerRun]
    · have hb : (breakerCall cfg (.closed f) t .transient).2.2 = .closed (f + 1) := by
        have hlt : ¬ cfg.threshold ≤ f + 1 := by omega
        simp [breakerCall, advanceBreaker, hlt]
      rw [hb]
      exact ih (f + 1) (by omega) hpos

/-- Claim C5: starting Closed, the breaker transitions to Open after
exactly N consecutive Transient failures where N is the configured
threshold (fewer leave it Closed); while Open and within the cool-down
every call fails fast with ServiceUnavailable without contacting
upstream and leaves the state unchanged; once the cool-down has elapsed
the state advances to Half-Open, the one probe call contacts upstream,
and that probe's outcome alone determines the next state — success
returns to Closed, failure returns to Open. -/
theorem circuit_breaker_states :
    (∀ (cfg : BreakerConfig) (t k : ℕ), k < cfg.threshold →
      breakerRun cfg (.closed 0) (List.replicate k (t, .transient)) = .closed k) ∧
    (∀ (cfg : BreakerConfig) (t : ℕ), 0 < cfg.threshold →
      breakerRun cfg (.closed 0) (List.replicate cfg.threshold (t, .transient)) =
        .opened t) ∧
    (∀ (cfg : BreakerConfig) (t0 now : ℕ) (o : CallOutcome),
      now < t0 + cfg.cooldown →
      breakerCall cfg (.opened t0) now o = (.fastFail, false, .opened t0)) ∧
    (∀ (cfg : BreakerConfig) (t0 now : ℕ) (o : CallOutcome),
      t0 + cfg.cooldown ≤ now →
      advanceBreaker cfg (.opened t0) now = .halfOpen ∧
      (breakerCall cfg (.opened t0) now o).2.1 = true ∧
      (breakerCall cfg (.opened t0) now o).2.2 =
        (if o = .ok then .closed 0 else .opened now)) := by
  refine ⟨?_, ?_, ?_, ?_⟩
  · intro cfg t k hk
    simpa using breakerRun_closed_below cfg t k 0 (by omega)
  · intro cfg t h
    simpa using breakerRun_closed_opens cfg t cfg.threshold 0 (by omega) h
  · intro cfg t0 now o h
    have hlt : ¬ t0 + cfg.cooldown ≤ now := by omega
    simp [breakerCall, advanceBreaker, hlt]
  · intro cfg t0 now o h
    refine ⟨by simp [advanceBreaker, h], ?_, ?_⟩ <;>
      cases o <;> simp [breakerCall, advanceBreaker, h]

/-- Witness for C5 with threshold 3 and cool-down 60: two failures stay
Closed, the third opens, a call at time 50 fails fast, and the probe at
time 70 decides the next state by its outcome alone. -/
theorem circuit_breaker_states_witness :
    ((2 < 3 ∧
      breakerRun ⟨3, 60⟩ (.closed 0) (List.replicate 2 (10, .transient)) = .closed 2) ∧
    breakerRun ⟨3, 60⟩ (.closed 0) (List.replicate 3 (10, .transient)) = .opened 10) ∧
    breakerCall ⟨3, 60⟩ (.opened 10) 50 .transient = (.fastFail, false, .opened 10) ∧
    advanceBreaker ⟨3, 60⟩ (.opened 10) 70 = .halfOpen ∧
    (breakerCall ⟨3, 60⟩ (.opened 10) 70 .ok).2.2 = .closed 0 ∧
    (breakerCall ⟨3, 60⟩ (.opened 10) 70 .transient).2.2 = .opened 70 := by
  have hok := (circuit_breaker_states.2.2.2 ⟨3, 60⟩ 10 70 .ok (by decide)).2.2
  have hfail := (circuit_breaker_states.2.2.2 ⟨3, 60⟩ 10 70 .transient (by decide)).2.2
  refine ⟨⟨⟨by decide, circuit_breaker_states.1 ⟨3, 60⟩ 10 2 (by decide)⟩,
      circuit_breaker_states.2.1 ⟨3, 60⟩ 10 (by decide)⟩,
    circuit_breaker_states.2.2.1 ⟨3, 60⟩ 10 50 .transient (by decide),
    (circuit_breaker_states.2.2.2 ⟨3, 60⟩ 10 70 .ok (by decide)).1, ?_, ?_⟩
  · simpa using hok
  · simpa using hfail

/-- Claim C6: once the per-day counter has reached the configured limit,
every further call in the same day returns QuotaExceeded and leaves the
state unchanged; and at a call in a new day the counter is reset to zero
before being applied, so (for a positive limit) the call is admitted with
the counter at one. -/
theorem quota_day_limit :
    (∀ (limit : ℕ) (s : QuotaState) (t : ℕ),
      dayOf t = s.day → limit ≤ s.count →
      quotaCall limit s t = (.quotaExceeded, s)) ∧
    (∀ (limit : ℕ) (s : QuotaState) (ts : List ℕ),
      (∀ t ∈ ts, dayOf t = s.day) → limit ≤ s.count →
      quotaRun limit s ts = (List.replicate ts.length .quotaExceeded, s)) ∧
    (∀ (s : QuotaState) (t : ℕ), dayOf t ≠ s.day → (quotaRollover s t).count = 0) ∧
    (∀ (limit : ℕ) (s : QuotaState) (t : ℕ), dayOf t ≠ s.day → 0 < limit →
      quotaCall limit s t = (.ok, ⟨1, dayOf t⟩)) := by
  have h1 : ∀ (limit : ℕ) (s : QuotaState) (t : ℕ),
      dayOf t = s.day → limit ≤ s.count →
      quotaCall limit s t = (.quotaExceeded, s) := by
    intro limit s t hd hc
    unfold quotaCall quotaRollover
    rw [if_pos hd, if_pos hc]
  refine ⟨h1, ?_, ?_, ?_⟩
  · intro limit s ts
    induction ts with
    | nil =>
      intro _ _
      rfl
    | cons t ts ih =>
      intro hall hc
      simp only [quotaRun]
      rw [h1 limit s t (hall t (by simp)) hc]
      rw [ih (fun u hu => hall u (by simp [hu])) hc]
      simp [List.replicate_succ]
  · intro s t hd
    unfold quotaRollover
    rw [if_neg hd]
  · intro limit s t hd hl
    unfold quotaCall quotaRollover
    rw [if_neg hd]
    have : ¬ limit ≤ 0 := by omega
    simp [this]

/-- Witness for C6 with limit 10: a counter at 10 on day 5 rejects two
same-day calls without change, and the first call of day 6 is admitted
with the counter reset. -/
theorem quota_day_limit_witness :
    (dayOf 432100 = 5 ∧ (10 : ℕ) ≤ 10 ∧
      quotaCall 10 ⟨10, 5⟩ 432100 = (.quotaExceeded, ⟨10, 5⟩)) ∧
    quotaRun 10 ⟨10, 5⟩ [432100, 432200] =
      ([.quotaExceeded, .quotaExceeded], ⟨10, 5⟩) ∧
    (dayOf 518500 ≠ 5 ∧ (quotaRollover ⟨10, 5⟩ 518500).count = 0) ∧
    quotaCall 10 ⟨10, 5⟩ 518500 = (.ok, ⟨1, 6⟩) := by
  have hd1 : dayOf 432100 = 5 := by decide
  have hd2 : dayOf 432200 = 5 := by decide
  have hd3 : dayOf 518500 ≠ 5 := by decide
  refine ⟨⟨hd1, le_refl 10, quota_day_limit.1 10 ⟨10, 5⟩ 432100 hd1 (le_refl 10)⟩,
    ?_, ⟨hd3, quota_day_limit.2.2.1 ⟨10, 5⟩ 518500 hd3⟩, ?_⟩
  · have := quota_day_limit.2.1 10 ⟨10, 5⟩ [432100, 432200]
      (by intro t ht; simp at ht; rcases ht with h | h <;> subst h <;> assumption) (le_refl 10)
    simpa using this
  · have := quota_day_limit.2.2.2 10 ⟨10, 5⟩ 518500 hd3 (by omega)
    have hd : dayOf 518500 = 6 := by decide
    rw [hd] at this
    exact this

end Fixit
